import Mathlib

/-!
Verification of the cluster orchestration subsystem of the sharder
repository, a master/worker process supervisor for gateway shard
connections.

The embedding below translates the two source files
`src/cluster/ClusterManager.ts` and `src/cluster/Cluster.ts` into Lean:

* JavaScript `Map` objects become association lists (`mapGet` / `mapSet`),
  matching Node `Map.get` / `Map.set` semantics (first matching key; `set`
  replaces in place).
* JavaScript numbers holding integral ids and counts become `Int`.
  A JavaScript variable that may hold `undefined` becomes `Option Int`.
* Side effects (forking a worker, sending an IPC message, constructing a
  gateway client, invoking `connect`) become explicit effect lists, and a
  thrown runtime `TypeError` (from dereferencing `undefined` behind a
  TypeScript non-null assertion) becomes a `Bool` "threw" flag.
* The self-recursive iterations `broadcast` / `fetchInfo` walk consecutive
  cluster ids; they are embedded with a fuel argument of `m.length + 1`,
  which is proved sufficient (`Sharder.exists_mapGet_gap`): a map with
  `m.length` entries cannot contain `m.length + 1` consecutive keys, so the
  recursion always reaches an absent key before the fuel runs out.
-/

namespace Sharder

/-- Modelled from the spec: `ClusterConfig` is declared in a part of the
repository that is not among the sources (it is imported from
`./Cluster` but not present there); §3 of the design document gives its
attributes: `id`, `shardCount`, `firstShardId`, `lastShardId`, and
`workerId` (absent until spawned). Only `id` and `workerId` are read by
the manager code under verification. -/
structure ClusterConfig where
  id : Int
  firstShardId : Int
  lastShardId : Int
  shardCount : Int
  workerId : Option Int := none
deriving Repr, DecidableEq

/-- RawCluster, from `Cluster.ts`: the value type of the manager's public
`clusters` map. -/
structure RawCluster where
  workerID : Int
  shardCount : Int
  firstShardID : Int
  lastShardID : Int
deriving Repr, DecidableEq

/-- IPCMessage: a loosely-typed message object exchanged between master and
worker.  Every field a sent message may carry is optional; `none` models an
absent (JavaScript `undefined`) property. -/
structure IPCMessage where
  name : Option String := none
  eventName : Option String := none
  clusterID : Option Int := none
  firstShardID : Option Int := none
  lastShardID : Option Int := none
  shardCount : Option Int := none
  value : Option String := none
deriving Repr, DecidableEq

/-- Lookup in an association list, matching `Map.get`: the value of the
first pair whose key equals `k`, else `none`. -/
def mapGet {α : Type} : List (Int × α) → Int → Option α
  | [], _ => none
  | (k', v) :: rest, k => if k' = k then some v else mapGet rest k

/-- Insertion in an association list, matching `Map.set`: replace the first
pair with key `k`, or append. -/
def mapSet {α : Type} : List (Int × α) → Int → α → List (Int × α)
  | [], k, v => [(k, v)]
  | (k', v') :: rest, k, v =>
    if k' = k then (k, v) :: rest else (k', v') :: mapSet rest k v

/-- ClusterManager.getCluster: `this.#clusters.find((x) => x.id === id || x.workerId === id)`.
A config matches either by its cluster id or by its assigned worker id. -/
def getCluster : List ClusterConfig → Int → Option ClusterConfig
  | [], _ => none
  | c :: rest, i =>
    if c.id = i ∨ c.workerId = some i then some c else getCluster rest i

/-- ClusterManager.addCluster: throws `"Clusters cannot have the same ID."`
when `getCluster(config.id)` finds an existing config, otherwise pushes the
config onto the list. -/
def addCluster (l : List ClusterConfig) (config : ClusterConfig) :
    Except String (List ClusterConfig) :=
  match getCluster l config.id with
  | some _ => Except.error "Clusters cannot have the same ID."
  | none => Except.ok (l ++ [config])

/-- ClusterManager.removeCluster: `findIndex` on `x.id === id` followed by
`splice`, i.e. remove the first config with that id, no-op when absent. -/
def removeCluster : List ClusterConfig → Int → List ClusterConfig
  | [], _ => []
  | c :: rest, i => if c.id = i then rest else c :: removeCluster rest i

/-- Assignment `clusterConfig.workerId = worker.id` performed by
`startCluster` on the config object returned by `getCluster`: update the
first config matching the same lookup predicate. -/
def assignWorkerId : List ClusterConfig → Int → Int → List ClusterConfig
  | [], _, _ => []
  | c :: rest, key, wid =>
    if c.id = key ∨ c.workerId = some key
    then { c with workerId := some wid } :: rest
    else c :: assignWorkerId rest key wid

/-- ManagerState: the mutable fields of a `ClusterManager` instance touched
by the config/registry operations.  `configs` is the private `#clusters`
array, `clusters` the public `clusters` map, `workers` the public `workers`
map, and `nextWorkerId` models Node's `cluster.fork()` counter, which
assigns worker ids 1, 2, 3, ... in fork order. -/
structure ManagerState where
  configs : List ClusterConfig
  clusters : List (Int × RawCluster)
  workers : List (Int × Int)
  nextWorkerId : Int
deriving Repr, DecidableEq

/-- Manager state directly after the constructor ran: all three containers
empty, no worker forked yet. -/
def initialManagerState : ManagerState :=
  { configs := [], clusters := [], workers := [], nextWorkerId := 1 }

/-- ClusterManager.startCluster: look the config up, return early when it
does not exist; otherwise fork a worker (consuming the next worker id), set
the config's `workerId`, and record `workerId -> clusterId` in the
`workers` map. -/
def startClusterM (s : ManagerState) (clusterId : Int) : ManagerState :=
  match getCluster s.configs clusterId with
  | none => s
  | some _ =>
    { s with
      configs := assignWorkerId s.configs clusterId s.nextWorkerId
      workers := mapSet s.workers s.nextWorkerId clusterId
      nextWorkerId := s.nextWorkerId + 1 }

/-- ManagerOp: the state-mutating operations of the `ClusterManager` class
(`addCluster`, `removeCluster`, `startCluster`); every other method of the
class only reads the containers. -/
inductive ManagerOp where
  | addOp (config : ClusterConfig)
  | removeOp (id : Int)
  | startOp (clusterId : Int)
deriving Repr, DecidableEq

/-- One manager method call.  A thrown duplicate-id error leaves the state
unchanged (the `push` is never reached). -/
def step (s : ManagerState) : ManagerOp → ManagerState
  | ManagerOp.addOp config =>
    match addCluster s.configs config with
    | Except.ok cfgs => { s with configs := cfgs }
    | Except.error _ => s
  | ManagerOp.removeOp i => { s with configs := removeCluster s.configs i }
  | ManagerOp.startOp cid => startClusterM s cid

/-- Run a sequence of manager method calls from the freshly constructed
state. -/
def runOps (ops : List ManagerOp) : ManagerState :=
  ops.foldl step initialManagerState

/-- ClientOptions: the gateway-client options object.  The four fields the
worker-side `connect` overwrites are explicit; `otherOptions` stands for
every other property the embedding application supplied, which
`Object.assign` leaves untouched. -/
structure ClientOptions where
  autoreconnect : Option Bool := none
  firstShardID : Option Int := none
  lastShardID : Option Int := none
  maxShards : Option Int := none
  otherOptions : List (String × String) := []
deriving Repr, DecidableEq

/-- ClusterManagerCtx: the manager fields the worker-side `Cluster.connect`
destructures (`token`, `clientOptions`; the logger and the client
constructor appear only inside effects). -/
structure ClusterManagerCtx where
  token : String
  clientOptions : ClientOptions
deriving Repr, DecidableEq

/-- ClusterState: the fields of a worker-side `Cluster` instance.  Each
numeric field is `Option Int` because assigning an absent message property
stores `undefined`.  `client` records the constructor arguments of the
gateway client once instantiated (`this.client = client`). -/
structure ClusterState where
  id : Option Int := some (-1)
  shardCount : Option Int := some 0
  maxShards : Option Int := some 0
  firstShardID : Option Int := some 0
  lastShardID : Option Int := some 0
  client : Option (String × ClientOptions) := none
deriving Repr, DecidableEq

/-- Cluster state as built by the `Cluster` constructor. -/
def initialClusterState : ClusterState := {}

/-- ClusterEffect: observable actions of the worker-side agent — the
`Connecting with n shards` log line, `new clientBase(token, clientOptions)`,
and `client.connect()`. -/
inductive ClusterEffect where
  | logConnecting (id shards : Option Int)
  | createClient (token : String) (options : ClientOptions)
  | clientConnect
deriving Repr, DecidableEq

/-- JavaScript comparison `x > 0` where `x` may be `undefined`
(`undefined > 0` evaluates to `false`). -/
def jsGtZero : Option Int → Bool
  | some n => decide (0 < n)
  | none => false

/-- Cluster.connect: build the override options
`{ autoreconnect: true, firstShardID, lastShardID, maxShards: shardCount }`,
`Object.assign` them over the manager's `clientOptions`, instantiate the
client with the merged options, store it in `this.client`, and call
`client.connect()`. -/
def clusterConnect (ctx : ClusterManagerCtx) (c : ClusterState) :
    ClusterState × List ClusterEffect :=
  let options : ClientOptions :=
    { ctx.clientOptions with
      autoreconnect := some true
      firstShardID := c.firstShardID
      lastShardID := c.lastShardID
      maxShards := c.shardCount }
  ({ c with client := some (ctx.token, options) },
   [ClusterEffect.logConnecting c.id c.shardCount,
    ClusterEffect.createClient ctx.token options,
    ClusterEffect.clientConnect])

/-- Cluster.spawn's `process.on("message", ...)` handler: return when the
message has no (truthy) `name`; on `name === "connect"` record
`firstShardID`, `lastShardID`, `clusterID` and `shardCount` from the
message, then call `connect()` only when `this.shardCount > 0`.  (A falsy
empty-string `name` also returns early; it equally fails the `"connect"`
comparison, so the behavior coincides.) -/
def clusterHandleMessage (ctx : ClusterManagerCtx) (c : ClusterState)
    (msg : IPCMessage) : ClusterState × List ClusterEffect :=
  match msg.name with
  | none => (c, [])
  | some n =>
    if n = "connect" then
      let c' : ClusterState :=
        { c with
          firstShardID := msg.firstShardID
          lastShardID := msg.lastShardID
          id := msg.clusterID
          shardCount := msg.shardCount }
      if jsGtZero c'.shardCount then clusterConnect ctx c' else (c', [])
    else (c, [])

/-- Modelled from the spec: `QueueItem`, the Connect Queue's element type,
lives in `ClusterQueue.ts`, which is not among the sources.  §3 of the
design document gives its attributes: `clusterId`, the shard range copied
from the ClusterConfig at enqueue time, and `enqueuedAt`; it has no `name`
attribute. -/
structure QueueItem where
  clusterID : Int
  firstShardID : Int
  lastShardID : Int
  shardCount : Int
  enqueuedAt : Int
deriving Repr, DecidableEq

/-- Message built by the queue's `execute` handler:
`{ ...item, eventName: "connect" }` — the spread copies the item's
properties and `eventName` is added; no `name` property is ever set. -/
def connectQueueMessage (item : QueueItem) : IPCMessage :=
  { name := none
    eventName := some "connect"
    clusterID := some item.clusterID
    firstShardID := some item.firstShardID
    lastShardID := some item.lastShardID
    shardCount := some item.shardCount
    value := none }

/-- Queue `execute` handler in `launch`: look the item's cluster up in the
public `clusters` map; when absent do nothing; when present dereference
`cluster.workers[workerID]!` and `send` — a missing live worker makes the
non-null assertion dereference `undefined` and throw (second component
`true`). -/
def queueExecuteSends (m : List (Int × RawCluster)) (lw : List Int)
    (item : QueueItem) : List (Int × IPCMessage) × Bool :=
  match mapGet m item.clusterID with
  | none => ([], false)
  | some c =>
    if lw.contains c.workerID
    then ([(c.workerID, connectQueueMessage item)], false)
    else ([], true)

/-- Message sent per cluster by `fetchInfo`: `{ eventName, value }`, again
without a `name` property. -/
def fetchInfoMessage (eventName value : String) : IPCMessage :=
  { eventName := some eventName, value := some value }

/-- Shared recursion of `broadcast` and `fetchInfo`: starting at cluster id
`start`, while the public `clusters` map has an entry, send `msg` to the
worker registered under its `workerID` and recurse on `start + 1`; stop at
the first absent id.  `lw` lists the live worker ids
(`cluster.workers`); a registered cluster whose worker id is not live makes
`cluster.workers[workerID]!.send` throw, aborting the walk (flag `true`).
The fuel argument replaces the unbounded source recursion; callers pass
`m.length + 1`, proved sufficient below. -/
def consecutiveSends (m : List (Int × RawCluster)) (lw : List Int)
    (msg : IPCMessage) : Nat → Int → List (Int × IPCMessage) × Bool
  | 0, _ => ([], false)
  | fuel + 1, start =>
    match mapGet m start with
    | none => ([], false)
    | some c =>
      if lw.contains c.workerID then
        let r := consecutiveSends m lw msg fuel (start + 1)
        ((c.workerID, msg) :: r.1, r.2)
      else ([], true)

/-- ClusterManager.broadcast: the messages (worker id, message) actually
sent, plus whether the walk threw on a dead worker. -/
def broadcastSends (m : List (Int × RawCluster)) (lw : List Int)
    (start : Int) (msg : IPCMessage) : List (Int × IPCMessage) × Bool :=
  consecutiveSends m lw msg (m.length + 1) start

/-- ClusterManager.fetchInfo: same walk as `broadcast`, sending the
`{ eventName, value }` message. -/
def fetchInfoSends (m : List (Int × RawCluster)) (lw : List Int)
    (start : Int) (eventName value : String) :
    List (Int × IPCMessage) × Bool :=
  consecutiveSends m lw (fetchInfoMessage eventName value) (m.length + 1) start

/-- ClusterManager.sendTo: `this.clusters.get(clusterID)!` — when the
cluster id is absent the non-null assertion dereferences `undefined` and a
`TypeError` is thrown (flag `true`); when present, the worker lookup is
guarded by `if (worker)`, so a dead worker silently drops the message. -/
def sendTo (m : List (Int × RawCluster)) (lw : List Int) (clusterID : Int)
    (msg : IPCMessage) : List (Int × IPCMessage) × Bool :=
  match mapGet m clusterID with
  | none => ([], true)
  | some c =>
    if lw.contains c.workerID then ([(c.workerID, msg)], false) else ([], false)

/-- ManagerEffect: observable master-side actions relevant to the exit
handler — in particular, consulting the configured reconnect strategy. -/
inductive ManagerEffect where
  | invokeReconnectStrategy (workerId code : Int)
  | forkWorker (workerId : Int)
  | sendToWorker (workerId : Int) (msg : IPCMessage)
deriving Repr, DecidableEq

/-- ClusterManager.restartCluster:
`private restartCluster(_worker: Worker, _code = 1) {}` — the body is
empty; no state change and no effect whatsoever. -/
def restartCluster (s : ManagerState) (_workerId _code : Int) :
    ManagerState × List ManagerEffect :=
  (s, [])

/-- The `cluster.on("exit", ...)` handler registered by `launch`: it calls
`this.restartCluster(worker, code)` and nothing else. -/
def onWorkerExit (s : ManagerState) (workerId code : Int) :
    ManagerState × List ManagerEffect :=
  restartCluster s workerId code

/-- SessionData: the `getBotGateway()` response, of which only `shards` is
read. -/
structure SessionData where
  shards : Int
deriving Repr, DecidableEq

/-- ClusterManager.fetchGuildCount: the REST call result arrives as
`none` when the promise rejected (`.catch(() => null)`); a missing or
falsy (zero) `shards` also throws; otherwise the estimated guild count is
`shards * 1000`. -/
def fetchGuildCount (sessionData : Option SessionData) : Except String Int :=
  match sessionData with
  | none => Except.error "Failed to fetch guild count."
  | some sd =>
    if sd.shards = 0 then Except.error "Failed to fetch guild count."
    else Except.ok (sd.shards * 1000)

/-- Math.ceil of the integer quotient `a / b` (exact for every positive
`b`, as `mathCeilDiv_bounds` certifies): `-((-a) / b)` with Euclidean
(floor-for-positive-divisor) division. -/
def mathCeilDiv (a b : Int) : Int :=
  -((-a).ediv b)

/-- ClusterManager.fetchShardCount:
`Math.max(shardCountOverride, Math.ceil(guildCount / guildsPerShard))`,
propagating `fetchGuildCount`'s rejection. -/
def fetchShardCount (sessionData : Option SessionData)
    (guildsPerShard shardCountOverride : Int) : Except String Int :=
  match fetchGuildCount sessionData with
  | Except.error e => Except.error e
  | Except.ok guildCount =>
    Except.ok (max shardCountOverride (mathCeilDiv guildCount guildsPerShard))

/-! Helper lemmas shared by the claim theorems. -/

/-- A config that is a member of the list and carries the looked-up cluster
id makes `getCluster` succeed (with some config, not necessarily that
one). -/
lemma getCluster_isSome_of_mem_id {l : List ClusterConfig}
    {c : ClusterConfig} {i : Int} (hmem : c ∈ l) (hid : c.id = i) :
    (getCluster l i).isSome := by
  induction l with
  | nil => cases hmem
  | cons x rest ih =>
    rw [getCluster]
    by_cases hx : x.id = i ∨ x.workerId = some i
    · simp [hx]
    · rcases List.mem_cons.mp hmem with rfl | hmem'
      · exact absurd (Or.inl hid) hx
      · simpa [hx] using ih hmem'

/-- No manager method call writes the public `clusters` map. -/
lemma step_preserves_clusters (s : ManagerState) (op : ManagerOp) :
    (step s op).clusters = s.clusters := by
  cases op with
  | addOp config =>
    rw [step]
    cases addCluster s.configs config <;> rfl
  | removeOp i => rfl
  | startOp cid =>
    rw [step, startClusterM]
    cases getCluster s.configs cid <;> rfl

/-- Folding any sequence of manager method calls leaves the public
`clusters` map where it started. -/
lemma foldl_step_clusters (ops : List ManagerOp) :
    ∀ s : ManagerState, (ops.foldl step s).clusters = s.clusters := by
  induction ops with
  | nil => intro s; rfl
  | cons op rest ih =>
    intro s
    rw [List.foldl_cons, ih, step_preserves_clusters]

/-- A successful `mapGet` pinpoints a pair of the association list. -/
lemma mapGet_mem {α : Type} {m : List (Int × α)} {k : Int} {v : α}
    (h : mapGet m k = some v) : (k, v) ∈ m := by
  induction m with
  | nil => simp [mapGet] at h
  | cons p rest ih =>
    obtain ⟨k', v'⟩ := p
    rw [mapGet] at h
    by_cases hk : k' = k
    · simp [hk] at h
      subst hk
      subst h
      exact List.mem_cons_self _ _
    · simp [hk] at h
      exact List.mem_cons_of_mem _ (ih h)

/-- A successful `mapGet` key belongs to the key list. -/
lemma mapGet_isSome_key_mem {α : Type} {m : List (Int × α)} {k : Int}
    (h : (mapGet m k).isSome) : k ∈ m.map Prod.fst := by
  obtain ⟨v, hv⟩ := Option.isSome_iff_exists.mp h
  exact List.mem_map.mpr ⟨(k, v), mapGet_mem hv, rfl⟩

/-- Pigeonhole bound behind the fuel: among the `m.length + 1` consecutive
keys `s, s + 1, ..., s + m.length` at least one is absent from `m`, since
`m` has only `m.length` keys. -/
lemma exists_mapGet_gap {α : Type} (m : List (Int × α)) (s : Int) :
    ∃ n : Nat, n ≤ m.length ∧ mapGet m (s + n) = none := by
  by_contra h
  push_neg at h
  have hall : ∀ i : Nat, i ≤ m.length → ((s + (i : Int)) ∈ m.map Prod.fst) := by
    intro i hi
    exact mapGet_isSome_key_mem (Option.ne_none_iff_isSome.mp (h i hi))
  have hsub : ((List.range (m.length + 1)).map (fun (i : Nat) => s + (i : Int))) ⊆
      m.map Prod.fst := by
    intro x hx
    obtain ⟨i, hi, rfl⟩ := List.mem_map.mp hx
    exact hall i (Nat.lt_succ_iff.mp (List.mem_range.mp hi))
  have hnd : ((List.range (m.length + 1)).map (fun (i : Nat) => s + (i : Int))).Nodup := by
    refine List.Nodup.map ?_ (List.nodup_range _)
    intro a b hab
    have hab' : s + (a : Int) = s + (b : Int) := hab
    omega
  have hlen := (List.subperm_of_subset hnd hsub).length_le
  simp only [List.length_map, List.length_range] at hlen
  omega

/-- Worker id registered for cluster id `k`, with default `0` when
absent (used only to phrase the run of a broadcast walk). -/
def wkAt (m : List (Int × RawCluster)) (k : Int) : Int :=
  match mapGet m k with
  | some c => c.workerID
  | none => 0

/-- Sends of an ideal walk over the run `s, s + 1, ..., s + n - 1`. -/
def runSends (m : List (Int × RawCluster)) (msg : IPCMessage) (s : Int)
    (n : Nat) : List (Int × IPCMessage) :=
  (List.range n).map (fun (i : Nat) => (wkAt m (s + (i : Int)), msg))

/-- Unfolding of `runSends` along the run. -/
lemma runSends_succ (m : List (Int × RawCluster)) (msg : IPCMessage)
    (s : Int) (n : Nat) :
    runSends m msg s (n + 1) = (wkAt m s, msg) :: runSends m msg (s + 1) n := by
  rw [runSends, runSends, List.range_succ_eq_map, List.map_cons, List.map_map]
  congr 1
  · simp
  · exact List.map_congr_left (fun i _ => by
      have harg : s + ((i : Int) + 1) = s + 1 + (i : Int) := by ring
      simp [Function.comp, harg])

/-- When every registered cluster has a live worker, the walk with enough
fuel sends to exactly the consecutive run ending at the first gap, and
never throws. -/
lemma consecutiveSends_eq_runSends (m : List (Int × RawCluster))
    (lw : List Int) (msg : IPCMessage)
    (hlive : ∀ p ∈ m, lw.contains (Prod.snd p).workerID = true) :
    ∀ (n fuel : Nat) (s : Int), n < fuel →
      (∀ i : Nat, i < n → (mapGet m (s + (i : Int))).isSome) →
      mapGet m (s + (n : Int)) = none →
      consecutiveSends m lw msg fuel s = (runSends m msg s n, false) := by
  intro n
  induction n with
  | zero =>
    intro fuel s hfuel _ hgap
    obtain ⟨f, rfl⟩ := Nat.exists_eq_succ_of_ne_zero (Nat.pos_iff_ne_zero.mp hfuel)
    rw [consecutiveSends]
    simp only [Nat.cast_zero, add_zero] at hgap
    rw [hgap]
    rfl
  | succ k ih =>
    intro fuel s hfuel hsome hgap
    obtain ⟨f, rfl⟩ := Nat.exists_eq_succ_of_ne_zero
      (Nat.pos_iff_ne_zero.mp (Nat.lt_of_le_of_lt (Nat.zero_le _) hfuel))
    have h0 : (mapGet m s).isSome := by
      have := hsome 0 (Nat.succ_pos k)
      simpa using this
    obtain ⟨c, hc⟩ := Option.isSome_iff_exists.mp h0
    have hcl : lw.contains c.workerID = true := hlive (s, c) (mapGet_mem hc)
    have hrec : consecutiveSends m lw msg f (s + 1) = (runSends m msg (s + 1) k, false) := by
      refine ih f (s + 1) (Nat.lt_of_succ_lt_succ hfuel) ?_ ?_
      · intro i hi
        have := hsome (i + 1) (Nat.succ_lt_succ hi)
        have harg : s + ((i + 1 : Nat) : Int) = s + 1 + (i : Int) := by
          push_cast
          ring
        rwa [harg] at this
      · have harg : s + ((k + 1 : Nat) : Int) = s + 1 + (k : Int) := by
          push_cast
          ring
        rwa [harg] at hgap
    rw [consecutiveSends, hc]
    simp only [hcl, if_true, hrec]
    rw [runSends_succ]
    have hwk : wkAt m s = c.workerID := by
      rw [wkAt, hc]
    rw [hwk]

/-- Bounds certifying that `mathCeilDiv a b` is the exact ceiling of the
rational quotient `a / b` for every positive `b`: it is the unique integer
`q` with `a ≤ b * q < a + b`. -/
lemma mathCeilDiv_bounds (a b : Int) (hb : 0 < b) :
    a ≤ b * mathCeilDiv a b ∧ b * mathCeilDiv a b < a + b := by
  have h1 : 0 ≤ (-a).emod b := Int.emod_nonneg (-a) (ne_of_gt hb)
  have h2 : (-a).emod b < b := Int.emod_lt_of_pos (-a) hb
  have h3 : b * ((-a).ediv b) + (-a).emod b = -a := Int.ediv_add_emod (-a) b
  rw [mathCeilDiv, mul_neg]
  constructor
  · linarith
  · linarith

/-! Claim theorems. -/

/-- C1: the claim says the queue's `execute` handler sends the worker a
message carrying the `name` discriminator with value `"connect"`, which the
worker-side handler dispatches into the connect sequence.  The code
instead builds `{ ...item, eventName: "connect" }`: the spread of a
QueueItem contributes no `name` property and the handler adds only
`eventName`, so every message this handler can send has `name` absent and
the worker-side handler (`if (!message.name) return`) drops it without
connecting.  The theorem evaluates the code at that point: every message
produced by the execute handler is `connectQueueMessage item`, that message
has no `name`, and the worker handler maps it to no state change and no
effect. -/
theorem queue_connect_message_never_dispatched
    (m : List (Int × RawCluster)) (lw : List Int) (item : QueueItem)
    (ctx : ClusterManagerCtx) (c : ClusterState) :
    (connectQueueMessage item).name = none ∧
    (connectQueueMessage item).eventName = some "connect" ∧
    clusterHandleMessage ctx c (connectQueueMessage item) = (c, []) ∧
    (queueExecuteSends m lw item).1.map Prod.snd =
      List.replicate (queueExecuteSends m lw item).1.length
        (connectQueueMessage item) := by
  refine ⟨rfl, rfl, rfl, ?_⟩
  rw [queueExecuteSends]
  cases mapGet m item.clusterID with
  | none => rfl
  | some rc =>
    by_cases hlw : rc.workerID ∈ lw
    · simp [hlw]
    · simp [hlw]

/-- C2: the claim says every unexpected worker exit makes the exit handler
invoke the configured Reconnect Strategy via `restartCluster`.  The code's
`restartCluster` has an empty body, so the exit handler changes nothing and
produces no effect — in particular no `invokeReconnectStrategy` effect —
for every exit code, clean or not.  The theorem evaluates the code at any
exit. -/
theorem restartCluster_is_empty_stub (s : ManagerState) (w code : Int) :
    onWorkerExit s w code = (s, []) := by
  rfl

/-- C3: `addCluster` with a config whose id equals the id of a config
already in the list throws `"Clusters cannot have the same ID."`, and the
resulting manager state — hence the config list, with its length, elements
and order — is exactly the prior one, for every manager state. -/
theorem addCluster_duplicate_id_fails (s : ManagerState)
    (config c : ClusterConfig) (hmem : c ∈ s.configs)
    (hid : c.id = config.id) :
    addCluster s.configs config =
      Except.error "Clusters cannot have the same ID." ∧
    step s (ManagerOp.addOp config) = s := by
  have hsome : (getCluster s.configs config.id).isSome :=
    getCluster_isSome_of_mem_id hmem hid
  obtain ⟨x, hx⟩ := Option.isSome_iff_exists.mp hsome
  have herr : addCluster s.configs config =
      Except.error "Clusters cannot have the same ID." := by
    rw [addCluster, hx]
  refine ⟨herr, ?_⟩
  rw [step, herr]

/-- Witness for C3 at a concrete state: a single config with id 1, adding a
second config with id 1 fails and leaves the state as it was. -/
theorem addCluster_duplicate_id_fails_witness :
    addCluster [{ id := 1, firstShardId := 0, lastShardId := 3, shardCount := 4 }]
        { id := 1, firstShardId := 4, lastShardId := 7, shardCount := 4 } =
      Except.error "Clusters cannot have the same ID." ∧
    step { configs := [{ id := 1, firstShardId := 0, lastShardId := 3, shardCount := 4 }],
           clusters := [], workers := [], nextWorkerId := 1 }
        (ManagerOp.addOp { id := 1, firstShardId := 4, lastShardId := 7, shardCount := 4 }) =
      { configs := [{ id := 1, firstShardId := 0, lastShardId := 3, shardCount := 4 }],
        clusters := [], workers := [], nextWorkerId := 1 } :=
  addCluster_duplicate_id_fails
    { configs := [{ id := 1, firstShardId := 0, lastShardId := 3, shardCount := 4 }],
      clusters := [], workers := [], nextWorkerId := 1 }
    { id := 1, firstShardId := 4, lastShardId := 7, shardCount := 4 }
    { id := 1, firstShardId := 0, lastShardId := 3, shardCount := 4 }
    (List.mem_singleton.mpr rfl) rfl

/-- C9: no `ClusterManager` operation ever inserts an entry into the public
`clusters` map — every single method call preserves it, after every
sequence of method calls from the constructed state it is empty, and
consequently `broadcast` and `fetchInfo` send no message (and throw
nothing) for every starting id. -/
theorem clusters_map_never_populated (ops : List ManagerOp) (lw : List Int)
    (start : Int) (msg : IPCMessage) (eventName value : String) :
    (∀ (s : ManagerState) (op : ManagerOp), (step s op).clusters = s.clusters) ∧
    (runOps ops).clusters = [] ∧
    broadcastSends (runOps ops).clusters lw start msg = ([], false) ∧
    fetchInfoSends (runOps ops).clusters lw start eventName value = ([], false) := by
  have hempty : (runOps ops).clusters = [] := foldl_step_clusters ops initialManagerState
  refine ⟨step_preserves_clusters, hempty, ?_, ?_⟩
  · rw [broadcastSends, hempty]
    rfl
  · rw [fetchInfoSends, hempty]
    rfl

/-- C10: a `connect` message whose `shardCount` is zero or negative makes
the worker-side handler record `clusterID`, `firstShardID`, `lastShardID`
and `shardCount` from the message, but produce no effect at all — no
client instantiation, no connect call — and leave the `client` field
exactly as it was (so an unset client stays unset). -/
theorem connect_nonpositive_shard_count_records_only
    (ctx : ClusterManagerCtx) (c : ClusterState) (msg : IPCMessage)
    (n : Int) (hname : msg.name = some "connect")
    (hsc : msg.shardCount = some n) (hnp : n ≤ 0) :
    clusterHandleMessage ctx c msg =
      ({ c with
         firstShardID := msg.firstShardID
         lastShardID := msg.lastShardID
         id := msg.clusterID
         shardCount := some n }, []) ∧
    (clusterHandleMessage ctx c msg).1.client = c.client := by
  have hgt : jsGtZero (some n) = false := by
    rw [jsGtZero]
    exact decide_eq_false (by omega)
  have hmain : clusterHandleMessage ctx c msg =
      ({ c with
         firstShardID := msg.firstShardID
         lastShardID := msg.lastShardID
         id := msg.clusterID
         shardCount := some n }, []) := by
    rw [clusterHandleMessage, hname]
    simp only [if_pos rfl, hsc, hgt]
    rfl
  refine ⟨hmain, ?_⟩
  rw [hmain]

/-- Witness for C10: a concrete `connect` message with `shardCount` 0
against the fresh cluster state — the fields are recorded, nothing else
happens, `client` stays `none`. -/
theorem connect_nonpositive_shard_count_records_only_witness :
    clusterHandleMessage { token := "t", clientOptions := {} }
        initialClusterState
        { name := some "connect", clusterID := some 0,
          firstShardID := some 0, lastShardID := some 3,
          shardCount := some 0 } =
      ({ initialClusterState with
         firstShardID := some 0
         lastShardID := some 3
         id := some 0
         shardCount := some 0 }, []) ∧
    (clusterHandleMessage { token := "t", clientOptions := {} }
        initialClusterState
        { name := some "connect", clusterID := some 0,
          firstShardID := some 0, lastShardID := some 3,
          shardCount := some 0 }).1.client = initialClusterState.client :=
  connect_nonpositive_shard_count_records_only
    { token := "t", clientOptions := {} } initialClusterState
    { name := some "connect", clusterID := some 0,
      firstShardID := some 0, lastShardID := some 3,
      shardCount := some 0 }
    0 rfl rfl (by omega)

/-- C5: when the gateway-info fetch succeeds and reports at least one
shard, `fetchShardCount` resolves to
`max(shardCountOverride, ceil((shards * 1000) / guildsPerShard))`; when the
fetch fails (rejected promise) or reports zero shards, `fetchGuildCount`
and hence `fetchShardCount` reject.  The final conjuncts pin the ceiling
down (for every positive divisor, `mathCeilDiv` is the exact rational
ceiling) and evaluate scenario D: 120 recommended shards — an estimated
120000 guilds — with `guildsPerShard` 1500 and override 0 yield 80. -/
theorem fetchShardCount_spec :
    (∀ (sd : SessionData) (gps ov : Int), 1 ≤ sd.shards →
      fetchShardCount (some sd) gps ov =
        Except.ok (max ov (mathCeilDiv (sd.shards * 1000) gps))) ∧
    (∀ gps ov : Int,
      fetchShardCount none gps ov =
        Except.error "Failed to fetch guild count.") ∧
    (∀ (sd : SessionData) (gps ov : Int), sd.shards = 0 →
      fetchGuildCount (some sd) = Except.error "Failed to fetch guild count." ∧
      fetchShardCount (some sd) gps ov =
        Except.error "Failed to fetch guild count.") ∧
    (∀ a b : Int, 0 < b →
      a ≤ b * mathCeilDiv a b ∧ b * mathCeilDiv a b < a + b) ∧
    fetchShardCount (some { shards := 120 }) 1500 0 = Except.ok 80 := by
  refine ⟨?_, ?_, ?_, mathCeilDiv_bounds, by rfl⟩
  · intro sd gps ov hsd
    have hne : ¬ sd.shards = 0 := by omega
    rw [fetchShardCount, fetchGuildCount, if_neg hne]
  · intro gps ov
    rfl
  · intro sd gps ov hz
    have hguild : fetchGuildCount (some sd) =
        Except.error "Failed to fetch guild count." := by
      rw [fetchGuildCount, if_pos hz]
    exact ⟨hguild, by rw [fetchShardCount, hguild]⟩

/-- Witness for C5 at scenario D's numbers: 120 recommended shards,
`guildsPerShard` 1500, override 0. -/
theorem fetchShardCount_spec_witness :
    fetchShardCount (some { shards := 120 }) 1500 0 =
      Except.ok (max 0 (mathCeilDiv (120 * 1000) 1500)) :=
  fetchShardCount_spec.1 { shards := 120 } 1500 0 (by decide)

/-- C7 counterexample: the claim says a `clusterID` absent from the
`clusters` map is silently dropped by `sendTo` — nothing sent, nothing
thrown.  On the empty `clusters` map (the only reachable one), the code
evaluates `this.clusters.get(clusterID)!.workerID` on `undefined` and
throws a `TypeError` (second component `true`), so the call does throw. -/
theorem sendTo_missing_cluster_throws :
    sendTo [] [] 0 { name := some "ping" } = ([], true) ∧
    sendTo [] [] 0 { name := some "ping" } ≠ ([], false) := by
  exact ⟨by decide, by decide⟩

/-- C7 amended: `sendTo` silently drops the message — sends nothing,
throws nothing (and touches no manager state: the method only reads) —
exactly when the `clusterID` is registered in the `clusters` map but its
`workerID` has no live worker; when the `clusterID` is registered with a
live worker it sends to that worker; but when the `clusterID` is absent
from the map the non-null assertion makes the method throw a `TypeError`
instead of dropping silently. -/
theorem sendTo_amended_spec (m : List (Int × RawCluster)) (lw : List Int)
    (clusterID : Int) (msg : IPCMessage) :
    (∀ c : RawCluster, mapGet m clusterID = some c → c.workerID ∉ lw →
      sendTo m lw clusterID msg = ([], false)) ∧
    (∀ c : RawCluster, mapGet m clusterID = some c → c.workerID ∈ lw →
      sendTo m lw clusterID msg = ([(c.workerID, msg)], false)) ∧
    (mapGet m clusterID = none → sendTo m lw clusterID msg = ([], true)) := by
  refine ⟨?_, ?_, ?_⟩
  · intro c hc hdead
    rw [sendTo, hc]
    simp [hdead]
  · intro c hc hlive
    rw [sendTo, hc]
    simp [hlive]
  · intro hnone
    rw [sendTo, hnone]

/-- Witness for C7's amended statement: cluster 3 registered with worker 7,
no live workers — the message is silently dropped. -/
theorem sendTo_amended_spec_witness :
    sendTo [(3, { workerID := 7, shardCount := 4, firstShardID := 0, lastShardID := 3 })]
      [] 3 { name := some "ping" } = ([], false) :=
  (sendTo_amended_spec
      [(3, { workerID := 7, shardCount := 4, firstShardID := 0, lastShardID := 3 })]
      [] 3 { name := some "ping" }).1
    { workerID := 7, shardCount := 4, firstShardID := 0, lastShardID := 3 }
    rfl (by simp)

/-- Options produced by `Cluster.connect`'s
`Object.assign(clientOptions, options)`: the embedding-supplied options
with the auto-reconnect flag and the assigned shard range forced. -/
def mergedOptions (ctx : ClusterManagerCtx) (msg : IPCMessage) (n : Int) :
    ClientOptions :=
  { ctx.clientOptions with
    autoreconnect := some true
    firstShardID := msg.firstShardID
    lastShardID := msg.lastShardID
    maxShards := some n }

/-- C8: a `connect` message with a positive shard count makes the
worker-side handler instantiate the gateway client exactly once — the
effect trace is precisely one `logConnecting`, one `createClient` and one
`clientConnect` — with options whose `firstShardID`, `lastShardID` and
`maxShards` equal the range and shard count carried by the message and
whose auto-reconnect flag is `true`, overriding whatever the embedding
`clientOptions` held for those four fields while leaving its other
properties untouched; the client (with exactly these constructor
arguments) is stored and its connect operation invoked. -/
theorem connect_message_instantiates_client
    (ctx : ClusterManagerCtx) (c : ClusterState) (msg : IPCMessage)
    (n : Int) (hname : msg.name = some "connect")
    (hsc : msg.shardCount = some n) (hpos : 0 < n) :
    clusterHandleMessage ctx c msg =
      ({ c with
         firstShardID := msg.firstShardID
         lastShardID := msg.lastShardID
         id := msg.clusterID
         shardCount := some n
         client := some (ctx.token, mergedOptions ctx msg n) },
       [ClusterEffect.logConnecting msg.clusterID (some n),
        ClusterEffect.createClient ctx.token (mergedOptions ctx msg n),
        ClusterEffect.clientConnect]) ∧
    (mergedOptions ctx msg n).autoreconnect = some true ∧
    (mergedOptions ctx msg n).firstShardID = msg.firstShardID ∧
    (mergedOptions ctx msg n).lastShardID = msg.lastShardID ∧
    (mergedOptions ctx msg n).maxShards = some n ∧
    (mergedOptions ctx msg n).otherOptions = ctx.clientOptions.otherOptions := by
  have hgt : jsGtZero (some n) = true := by
    rw [jsGtZero]
    exact decide_eq_true hpos
  refine ⟨?_, rfl, rfl, rfl, rfl, rfl⟩
  rw [clusterHandleMessage, hname]
  simp only [if_pos rfl, hsc, hgt]
  rw [clusterConnect]
  rfl

/-- Witness for C8: a concrete `connect` message (cluster 0, shards 0–3,
count 4) against embedding options that set all four overridden fields to
conflicting values and carry another property. -/
theorem connect_message_instantiates_client_witness :
    clusterHandleMessage
        { token := "tok",
          clientOptions :=
            { autoreconnect := some false, firstShardID := some 9,
              lastShardID := some 9, maxShards := some 9,
              otherOptions := [("intents", "all")] } }
        initialClusterState
        { name := some "connect", clusterID := some 0,
          firstShardID := some 0, lastShardID := some 3,
          shardCount := some 4 } =
      ({ initialClusterState with
         firstShardID := some 0
         lastShardID := some 3
         id := some 0
         shardCount := some 4
         client := some ("tok",
           mergedOptions
             { token := "tok",
               clientOptions :=
                 { autoreconnect := some false, firstShardID := some 9,
                   lastShardID := some 9, maxShards := some 9,
                   otherOptions := [("intents", "all")] } }
             { name := some "connect", clusterID := some 0,
               firstShardID := some 0, lastShardID := some 3,
               shardCount := some 4 } 4) },
       [ClusterEffect.logConnecting (some 0) (some 4),
        ClusterEffect.createClient "tok"
          (mergedOptions
            { token := "tok",
              clientOptions :=
                { autoreconnect := some false, firstShardID := some 9,
                  lastShardID := some 9, maxShards := some 9,
                  otherOptions := [("intents", "all")] } }
            { name := some "connect", clusterID := some 0,
              firstShardID := some 0, lastShardID := some 3,
              shardCount := some 4 } 4),
        ClusterEffect.clientConnect]) :=
  (connect_message_instantiates_client
    { token := "tok",
      clientOptions :=
        { autoreconnect := some false, firstShardID := some 9,
          lastShardID := some 9, maxShards := some 9,
          otherOptions := [("intents", "all")] } }
    initialClusterState
    { name := some "connect", clusterID := some 0,
      firstShardID := some 0, lastShardID := some 3,
      shardCount := some 4 }
    4 rfl rfl (by omega)).1

/-- Config with id 1, never spawned, used by the C6 counterexample. -/
def c6ConfigA : ClusterConfig :=
  { id := 1, firstShardId := 0, lastShardId := 3, shardCount := 4 }

/-- Config with id 2, spawned first (so it receives worker id 1), used by
the C6 counterexample. -/
def c6ConfigB : ClusterConfig :=
  { id := 2, firstShardId := 4, lastShardId := 7, shardCount := 4 }

/-- Reachable manager state for the C6 counterexample: add configs 1 and 2,
then spawn cluster 2; Node's first forked worker has id 1, so config 2's
`workerId` becomes 1 — equal to config 1's cluster id. -/
def c6State : ManagerState :=
  runOps [ManagerOp.addOp c6ConfigA, ManagerOp.addOp c6ConfigB,
          ManagerOp.startOp 2]

/-- C6 counterexample: after the reachable sequence
`addCluster(id 1); addCluster(id 2); startCluster(2)`, config 2 is spawned
with `workerId = 1`, yet `getCluster(2)` returns config 2 while
`getCluster(1)` — config 2's worker id — returns config 1, because the
single `find` predicate `x.id === id || x.workerId === id` hits config 1's
cluster id first.  The spawned config's two lookups disagree, refuting the
claim as stated. -/
theorem getCluster_spawned_lookup_mismatch :
    c6State.configs = [c6ConfigA, { c6ConfigB with workerId := some 1 }] ∧
    getCluster c6State.configs 2 = some { c6ConfigB with workerId := some 1 } ∧
    getCluster c6State.configs 1 = some c6ConfigA ∧
    getCluster c6State.configs 2 ≠ getCluster c6State.configs 1 := by
  decide

/-- C6 amended: once a config is spawned (its `workerId` set), looking it
up by cluster id and by worker id returns that same config, provided its
cluster id and worker id collide with no other config's cluster id or
worker id — without that disjointness the two lookups can disagree, as the
counterexample shows. -/
theorem getCluster_by_id_and_worker (l : List ClusterConfig)
    (c : ClusterConfig) (w : Int) (hmem : c ∈ l) (hw : c.workerId = some w)
    (huniq : ∀ x ∈ l, x = c ∨
      (x.id ≠ c.id ∧ x.workerId ≠ some c.id ∧ x.id ≠ w ∧ x.workerId ≠ some w)) :
    getCluster l c.id = some c ∧ getCluster l w = some c := by
  induction l with
  | nil => cases hmem
  | cons x rest ih =>
    rcases huniq x (List.mem_cons_self x rest) with rfl | ⟨h1, h2, h3, h4⟩
    · constructor
      · rw [getCluster, if_pos (Or.inl rfl)]
      · rw [getCluster, if_pos (Or.inr hw)]
    · have hcond1 : ¬(x.id = c.id ∨ x.workerId = some c.id) := by
        rintro (h | h)
        · exact h1 h
        · exact h2 h
      have hcond2 : ¬(x.id = w ∨ x.workerId = some w) := by
        rintro (h | h)
        · exact h3 h
        · exact h4 h
      have hmem' : c ∈ rest := by
        rcases List.mem_cons.mp hmem with rfl | h
        · exact absurd rfl h1
        · exact h
      have ih' := ih hmem' (fun y hy => huniq y (List.mem_cons_of_mem _ hy))
      constructor
      · rw [getCluster, if_neg hcond1]
        exact ih'.1
      · rw [getCluster, if_neg hcond2]
        exact ih'.2

/-- Witness for C6's amended statement: a lone spawned config with cluster
id 5 and worker id 9 is found unchanged under both keys. -/
theorem getCluster_by_id_and_worker_witness :
    getCluster [{ id := 5, firstShardId := 0, lastShardId := 3,
                  shardCount := 4, workerId := some 9 }] 5 =
      some { id := 5, firstShardId := 0, lastShardId := 3,
             shardCount := 4, workerId := some 9 } ∧
    getCluster [{ id := 5, firstShardId := 0, lastShardId := 3,
                  shardCount := 4, workerId := some 9 }] 9 =
      some { id := 5, firstShardId := 0, lastShardId := 3,
             shardCount := 4, workerId := some 9 } :=
  getCluster_by_id_and_worker
    [{ id := 5, firstShardId := 0, lastShardId := 3,
       shardCount := 4, workerId := some 9 }]
    { id := 5, firstShardId := 0, lastShardId := 3,
      shardCount := 4, workerId := some 9 }
    9 (by decide) rfl (by decide)

/-- C4: provided every registered cluster's worker is alive (the premise
under which the claim speaks of sends at all), `broadcast(s, msg)` sends
`msg` to precisely the workers of the consecutive run of cluster ids
`s, s + 1, ...` that are all present in the `clusters` map: there is an
`n` such that every id `s + i` with `i < n` is registered (and the `i`-th
send targets exactly that cluster's worker), `s + n` is the first id with
no registered cluster, the send list is the run's list and nothing more —
so no cluster past that first gap receives the message — and nothing is
thrown. -/
theorem broadcast_stops_at_first_gap (m : List (Int × RawCluster))
    (lw : List Int) (s : Int) (msg : IPCMessage)
    (hlive : ∀ p ∈ m, lw.contains (Prod.snd p).workerID = true) :
    ∃ n : Nat,
      (∀ i : Nat, i < n → ∃ c : RawCluster,
        mapGet m (s + (i : Int)) = some c ∧ wkAt m (s + (i : Int)) = c.workerID) ∧
      mapGet m (s + (n : Int)) = none ∧
      broadcastSends m lw s msg = (runSends m msg s n, false) := by
  obtain ⟨n0, hn0, hgap0⟩ := exists_mapGet_gap m s
  have hex : ∃ n : Nat, mapGet m (s + (n : Int)) = none := ⟨n0, hgap0⟩
  have hsome : ∀ i : Nat, i < Nat.find hex → (mapGet m (s + (i : Int))).isSome :=
    fun i hi => Option.ne_none_iff_isSome.mp (Nat.find_min hex hi)
  refine ⟨Nat.find hex, ?_, Nat.find_spec hex, ?_⟩
  · intro i hi
    obtain ⟨c, hc⟩ := Option.isSome_iff_exists.mp (hsome i hi)
    refine ⟨c, hc, ?_⟩
    rw [wkAt, hc]
  · have hlt : Nat.find hex < m.length + 1 :=
      Nat.lt_succ_of_le (le_trans (Nat.find_min' hex hgap0) hn0)
    rw [broadcastSends]
    exact consecutiveSends_eq_runSends m lw msg hlive (Nat.find hex)
      (m.length + 1) s hlt hsome (Nat.find_spec hex)

/-- Cluster map used by the C4 witness: clusters 0 and 1 form a run,
cluster 5 lies past the gap at id 2. -/
def c4Map : List (Int × RawCluster) :=
  [(0, { workerID := 1, shardCount := 4, firstShardID := 0, lastShardID := 3 }),
   (1, { workerID := 2, shardCount := 4, firstShardID := 4, lastShardID := 7 }),
   (5, { workerID := 3, shardCount := 4, firstShardID := 8, lastShardID := 11 })]

/-- Message used by the C4 witness. -/
def c4Msg : IPCMessage := { name := some "hello" }

/-- Witness for C4: clusters 0 and 1 registered with live workers 1 and 2
(worker 3 of cluster 5 alive too), broadcast from 0 — the run is `0, 1`,
the first gap is id 2, and cluster 5 past the gap receives nothing. -/
theorem broadcast_stops_at_first_gap_witness :
    ∃ n : Nat,
      (∀ i : Nat, i < n → ∃ c : RawCluster,
        mapGet c4Map ((0 : Int) + (i : Int)) = some c ∧
        wkAt c4Map ((0 : Int) + (i : Int)) = c.workerID) ∧
      mapGet c4Map ((0 : Int) + (n : Int)) = none ∧
      broadcastSends c4Map [1, 2, 3] 0 c4Msg = (runSends c4Map c4Msg 0 n, false) :=
  broadcast_stops_at_first_gap c4Map [1, 2, 3] 0 c4Msg (by decide)

end Sharder
